import Mathlib

/-!
Shallow embedding of the review sentiment analyzer (app.js) and its
Google Apps Script logging companion.

The embedding models the original logic of the two source files:
`analyzeSentiment`, `getRandomReview`, `collectMetadata` and
`logToGoogleSheets` from app.js.  External collaborators (the
transformers.js inference pipeline, fetch, the DOM, Date) are modelled as
explicit parameters: the engine's return value is a parameter of
`analyzeSentiment`, `Math.random()` is a rational draw in [0,1) passed to
`getRandomReview`, and the current ISO timestamp is a string parameter.
JavaScript numbers are modelled as rationals (ℚ), JavaScript thrown
errors as an explicit error type carried in `Except`.
-/

/-- Errors thrown (or surfaced via showError) by app.js, one constructor per
distinct message; `message` recovers the exact JavaScript string. -/
inductive JsError where
  | engineNotReady
  | invalidInput
  | invalidEngineOutput
  | emptyDataset
  | noAnalysisAvailable
  | notConfigured
  | endpointUnreachable
deriving DecidableEq

/-- The literal message attached to each error in app.js. -/
def JsError.message : JsError → String
  | .engineNotReady => "Sentiment model not loaded"
  | .invalidInput => "Review text is empty"
  | .invalidEngineOutput => "Invalid analysis results"
  | .emptyDataset => "No reviews available"
  | .noAnalysisAvailable => "No analysis to log"
  | .notConfigured => "Google Sheets integration not configured. Please set your Google Script URL."
  | .endpointUnreachable => "Failed to log to Google Sheets"

/-- The three-way sentiment category computed at app.js lines 166-173. -/
inductive Sentiment where
  | positive
  | negative
  | neutral
deriving DecidableEq

/-- One (label, score) pair as returned by the inference engine
(`primaryResult` shape at app.js line 160). -/
structure RawClassification where
  label : String
  score : ℚ
deriving DecidableEq

/-- The value returned by `await sentimentPipeline(text)` at app.js line 153:
either a JavaScript array of classifications, or some non-array value
(all non-array values behave identically in the `Array.isArray` check at
line 155, so they are collapsed into one constructor). -/
inductive EngineOutput where
  | arr (results : List RawClassification)
  | nonArray
deriving DecidableEq

/-- The object literal returned by `analyzeSentiment` (app.js lines 175-180). -/
structure SentimentResult where
  label : String
  score : ℚ
  sentiment : Sentiment
  confidence : String
deriving DecidableEq

/-- JavaScript `String.prototype.toUpperCase()` (ASCII case mapping),
used at app.js line 163. -/
def jsToUpperCase (s : String) : String :=
  String.mk (s.data.map Char.toUpper)

/-- Characters treated as whitespace by JavaScript `String.prototype.trim()`
(restricted to the ASCII white-space characters). -/
def jsIsSpace (c : Char) : Bool :=
  c == ' ' || c == '\t' || c == '\n' || c == '\r' || c == '\x0b' || c == '\x0c'

/-- JavaScript `String.prototype.trim()`, used at app.js line 148. -/
def jsTrim (s : String) : String :=
  String.mk (((s.data.dropWhile jsIsSpace).reverse.dropWhile jsIsSpace).reverse)

/-- Helper for substring containment: `startsWithChars needle hay` holds when
`hay` begins with `needle`. -/
def startsWithChars : List Char → List Char → Bool
  | [], _ => true
  | _ :: _, [] => false
  | a :: as, b :: bs => a == b && startsWithChars as bs

/-- Helper for substring containment: `containsChars hay needle` holds when
`needle` occurs contiguously inside `hay`. -/
def containsChars : List Char → List Char → Bool
  | [], needle => needle.isEmpty
  | c :: rest, needle => startsWithChars needle (c :: rest) || containsChars rest needle

/-- JavaScript `String.prototype.includes(sub)`, used at app.js
lines 167 and 169. -/
def jsIncludes (s sub : String) : Bool :=
  containsChars s.data sub.data

/-- JavaScript `x.toFixed(1)` for a non-negative number: the integer nearest
to `x*10` (ties going up, per the ECMAScript `toFixed` rounding rule)
printed with the last digit after a decimal point.  Used at
app.js line 179 as `(score * 100).toFixed(1)`. -/
def jsToFixed1 (x : ℚ) : String :=
  toString ((⌊x * 10 + 1/2⌋).toNat / 10) ++ "." ++ toString ((⌊x * 10 + 1/2⌋).toNat % 10)

/-- The sentiment derivation at app.js lines 166-173, applied to the
already-uppercased label: positive when the label contains "POSITIVE" and
the score exceeds 0.5, else negative when it contains "NEGATIVE" and the
score exceeds 0.5, else neutral. -/
def deriveSentiment (label : String) (score : ℚ) : Sentiment :=
  if jsIncludes label "POSITIVE" = true ∧ score > 1/2 then Sentiment.positive
  else if jsIncludes label "NEGATIVE" = true ∧ score > 1/2 then Sentiment.negative
  else Sentiment.neutral

/-- app.js lines 143-181, `analyzeSentiment(text)`.  The pipeline readiness
check (`!sentimentPipeline`, line 144) is modelled by `pipelineLoaded`;
the value of `await sentimentPipeline(text)` is the parameter `results`
(unused when the readiness or emptiness check throws first).  The
JavaScript emptiness test `!text || text.trim().length === 0` is modelled
literally: `!s` is true exactly for the empty string. -/
def analyzeSentiment (pipelineLoaded : Bool) (text : String) (results : EngineOutput) :
    Except JsError SentimentResult :=
  if !pipelineLoaded then Except.error JsError.engineNotReady
  else if text = "" ∨ (jsTrim text).length = 0 then Except.error JsError.invalidInput
  else
    match results with
    | EngineOutput.nonArray => Except.error JsError.invalidEngineOutput
    | EngineOutput.arr [] => Except.error JsError.invalidEngineOutput
    | EngineOutput.arr (primaryResult :: _) =>
      Except.ok
        { label := jsToUpperCase primaryResult.label
          score := primaryResult.score
          sentiment := deriveSentiment (jsToUpperCase primaryResult.label) primaryResult.score
          confidence := jsToFixed1 (primaryResult.score * 100) }

/-- app.js lines 131-138, `getRandomReview()`.  `Math.random()` is modelled
by the rational parameter `rand` (a draw from [0,1)); the selected index is
`Math.floor(rand * reviews.length)`. -/
def getRandomReview (reviews : List String) (rand : ℚ) : Except JsError String :=
  if reviews.length = 0 then Except.error JsError.emptyDataset
  else Except.ok (reviews.getD (⌊rand * (reviews.length : ℚ)⌋).toNat "")

/-- The MODEL_NAME constant of app.js line 6. -/
def MODEL_NAME : String := "Xenova/distilbert-base-uncased-finetuned-sst-2-english"

/-- The unconfigured placeholder value of GOOGLE_SCRIPT_URL, app.js line 5. -/
def PLACEHOLDER_URL : String := "YOUR_GOOGLE_APPS_SCRIPT_WEB_APP_URL"

/-- Browser environment values read by `collectMetadata` (app.js
lines 268-279): navigator and screen properties. -/
structure ClientEnv where
  userAgent : String
  language : String
  platformId : String
  screenWidth : ℕ
  screenHeight : ℕ
deriving DecidableEq

/-- The object built by `collectMetadata()` at app.js lines 268-279; `now`
models `new Date().toISOString()` (evaluated twice there, for `timestamp`
and `analysisTime`, within the same call). -/
structure Metadata where
  userAgent : String
  language : String
  platformId : String
  screenResolution : String
  model : String
  timestamp : String
  reviewCount : ℕ
  analysisTime : String
deriving DecidableEq

/-- app.js lines 268-279, `collectMetadata()`. -/
def collectMetadata (env : ClientEnv) (now : String) (reviewCount : ℕ) : Metadata :=
  { userAgent := env.userAgent
    language := env.language
    platformId := env.platformId
    screenResolution := toString env.screenWidth ++ "x" ++ toString env.screenHeight
    model := MODEL_NAME
    timestamp := now
    reviewCount := reviewCount
    analysisTime := now }

/-- The nested `analysis` object embedded in the meta blob at app.js
lines 303-308. -/
structure AnalysisMeta where
  label : String
  score : ℚ
  sentiment : Sentiment
  confidence : String
deriving DecidableEq

/-- The object serialized by `JSON.stringify` into the payload's `meta`
field (app.js lines 301-309); kept structured here, serialization being
external. -/
structure MetaBlob where
  base : Metadata
  analysis : AnalysisMeta
deriving DecidableEq

/-- The `payload` object of app.js lines 297-310, which is exactly the
LogRecord shape consumed by the Apps Script `doPost`. -/
structure LogRecord where
  ts_iso : String
  review : String
  sentiment : String
  meta : MetaBlob
deriving DecidableEq

/-- The `currentAnalysis` session object stored at app.js lines 244-248:
the review text, the spread fields of the SentimentResult, and the
classification-time ISO timestamp. -/
structure Analysis where
  review : String
  label : String
  score : ℚ
  sentiment : Sentiment
  confidence : String
  timestamp : String
deriving DecidableEq

/-- The module-level mutable state of app.js read by the logging action:
`reviews` (line 10) and `currentAnalysis` (line 12, null when no
classification has happened, modelled as `Option`). -/
structure AppState where
  reviews : List String
  currentAnalysis : Option Analysis
deriving DecidableEq

/-- The payload construction of app.js lines 297-310, factored out of
`logToGoogleSheets`: ts_iso is the classification timestamp, sentiment is
the template string `LABEL (CONFIDENCE%)`, and meta combines
`collectMetadata()` with the nested analysis duplicate. -/
def buildLogRecord (ca : Analysis) (env : ClientEnv) (now : String) (reviewCount : ℕ) :
    LogRecord :=
  { ts_iso := ca.timestamp
    review := ca.review
    sentiment := ca.label ++ " (" ++ ca.confidence ++ "%)"
    meta :=
      { base := collectMetadata env now reviewCount
        analysis :=
          { label := ca.label
            score := ca.score
            sentiment := ca.sentiment
            confidence := ca.confidence } } }

/-- Outcome of the `fetch` call at app.js lines 317-324: either it resolves
(with an opaque no-cors response) or it rejects with a network error. -/
inductive FetchOutcome where
  | success
  | networkFailure
deriving DecidableEq

/-- app.js lines 284-349, `logToGoogleSheets()`.  The configured script URL
is the parameter `url` (the GOOGLE_SCRIPT_URL configuration constant),
`now` models `new Date().toISOString()` inside `collectMetadata`, and
`net` the fetch outcome.  The function returns the action's result (the
transmitted payload, or the surfaced error) together with the module
state after the call; the JavaScript body never assigns to `reviews` or
`currentAnalysis`, so the state passes through unchanged. -/
def logToGoogleSheets (url : String) (st : AppState) (env : ClientEnv) (now : String)
    (net : FetchOutcome) : Except JsError LogRecord × AppState :=
  match st.currentAnalysis with
  | none => (Except.error JsError.noAnalysisAvailable, st)
  | some ca =>
    if url = "" ∨ url = PLACEHOLDER_URL then (Except.error JsError.notConfigured, st)
    else
      match net with
      | FetchOutcome.networkFailure => (Except.error JsError.endpointUnreachable, st)
      | FetchOutcome.success => (Except.ok (buildLogRecord ca env now st.reviews.length), st)

/-- Modelled from the spec: the quantity "`score*100` rounded to exactly one
decimal place" (spec section 8), defined independently of `jsToFixed1` as
the nearest multiple of 1/10 (ties up); used only to compare the code's
formatted string against the spec's description. -/
def specRoundOneDecimal (x : ℚ) : ℚ :=
  (⌊x * 10 + 1/2⌋ : ℚ) / 10

/-- The string `s` is a decimal numeral with exactly one digit after the
point, denoting the rational `v`. -/
def denotesOneDecimal (s : String) (v : ℚ) : Prop :=
  ∃ a b : ℕ, b < 10 ∧ s = toString a ++ "." ++ toString b ∧ v = (a : ℚ) + (b : ℚ) / 10

/-! ## Helper lemmas -/

/-- On the happy path (pipeline loaded, non-empty text, non-empty array
result) `analyzeSentiment` returns the record built from the first entry. -/
theorem analyzeSentiment_ok (text : String) (raw : RawClassification)
    (rest : List RawClassification) (ht : ¬(text = "" ∨ (jsTrim text).length = 0)) :
    analyzeSentiment true text (EngineOutput.arr (raw :: rest)) =
      Except.ok
        { label := jsToUpperCase raw.label
          score := raw.score
          sentiment := deriveSentiment (jsToUpperCase raw.label) raw.score
          confidence := jsToFixed1 (raw.score * 100) } := by
  simp [analyzeSentiment, ht]

/-- The string produced by `jsToFixed1 x` (for non-negative `x`) is a decimal
numeral with exactly one digit after the point, and the value it denotes is
`x` rounded to one decimal place. -/
theorem jsToFixed1_denotes (x : ℚ) (hx : 0 ≤ x) :
    denotesOneDecimal (jsToFixed1 x) (specRoundOneDecimal x) := by
  have hm : (0:ℤ) ≤ ⌊x * 10 + 1/2⌋ := Int.floor_nonneg.mpr (by positivity)
  refine ⟨(⌊x * 10 + 1/2⌋).toNat / 10, (⌊x * 10 + 1/2⌋).toNat % 10,
    Nat.mod_lt _ (by norm_num), rfl, ?_⟩
  have hcast : (((⌊x * 10 + 1/2⌋).toNat : ℚ)) = ((⌊x * 10 + 1/2⌋ : ℤ) : ℚ) := by
    exact_mod_cast congrArg (fun z : ℤ => (z : ℚ)) (Int.toNat_of_nonneg hm)
  have hdm : (10 * ((⌊x * 10 + 1/2⌋).toNat / 10) + (⌊x * 10 + 1/2⌋).toNat % 10 : ℕ) =
      (⌊x * 10 + 1/2⌋).toNat := Nat.div_add_mod _ 10
  unfold specRoundOneDecimal
  rw [← hcast]
  calc ((((⌊x * 10 + 1/2⌋).toNat : ℕ) : ℚ)) / 10
      = ((10 * ((⌊x * 10 + 1/2⌋).toNat / 10) + (⌊x * 10 + 1/2⌋).toNat % 10 : ℕ) : ℚ) / 10 := by
        rw [hdm]
    _ = (((⌊x * 10 + 1/2⌋).toNat / 10 : ℕ) : ℚ) + (((⌊x * 10 + 1/2⌋).toNat % 10 : ℕ) : ℚ) / 10 := by
        push_cast
        ring

/-! ## Claim theorems -/

/-- C1 (counterexample).  The claim "the sentiment is negative iff the label
case-insensitively contains negative and the score exceeds 0.5" fails on a
label containing both markers: for the primary classification
(label "positive-negative", score 0.9) the label does contain "negative"
case-insensitively and the score exceeds 0.5, yet `analyzeSentiment`
assigns sentiment positive, not negative. -/
theorem sentiment_negative_iff_counterexample :
    jsIncludes (jsToUpperCase "positive-negative") "NEGATIVE" = true ∧
    ((9:ℚ)/10 > 1/2) ∧
    Except.map SentimentResult.sentiment
      (analyzeSentiment true "ok"
        (EngineOutput.arr [{ label := "positive-negative", score := 9/10 }])) =
      Except.ok Sentiment.positive ∧
    Sentiment.positive ≠ Sentiment.negative := by
  refine ⟨by decide, by norm_num, ?_, by decide⟩
  rw [analyzeSentiment_ok _ _ _ (by decide)]
  have hp : jsIncludes (jsToUpperCase "positive-negative") "POSITIVE" = true := by decide
  have hs : ((9:ℚ)/10 > 1/2) := by norm_num
  simp [Except.map, deriveSentiment, hp, hs, -one_div]

/-- C1 (amended).  Characterization of the sentiment derivation applied to
the uppercased primary label: positive iff the label case-insensitively
contains "positive" and the score exceeds 0.5; negative iff it contains
"negative", the score exceeds 0.5, and the positive rule does not apply;
neutral iff neither rule applies.  Together with the disjointness of the
three constructor values this gives that exactly one category holds. -/
theorem sentiment_category_characterization (L : String) (s : ℚ) :
    (deriveSentiment (jsToUpperCase L) s = Sentiment.positive ↔
      (jsIncludes (jsToUpperCase L) "POSITIVE" = true ∧ s > 1/2)) ∧
    (deriveSentiment (jsToUpperCase L) s = Sentiment.negative ↔
      (jsIncludes (jsToUpperCase L) "NEGATIVE" = true ∧ s > 1/2 ∧
        ¬(jsIncludes (jsToUpperCase L) "POSITIVE" = true ∧ s > 1/2))) ∧
    (deriveSentiment (jsToUpperCase L) s = Sentiment.neutral ↔
      (¬(jsIncludes (jsToUpperCase L) "POSITIVE" = true ∧ s > 1/2) ∧
       ¬(jsIncludes (jsToUpperCase L) "NEGATIVE" = true ∧ s > 1/2))) := by
  by_cases hP : jsIncludes (jsToUpperCase L) "POSITIVE" = true <;>
    by_cases hN : jsIncludes (jsToUpperCase L) "NEGATIVE" = true <;>
    by_cases hs : s > 1/2 <;>
    simp [deriveSentiment, hP, hN, hs, -one_div]

/-- C2 (counterexample).  The claim "the label field stored in the returned
SentimentResult is the original-case label as produced by the engine"
fails: for the engine label "positive" the stored label is "POSITIVE",
which differs from the original-case label. -/
theorem label_original_case_counterexample :
    Except.map SentimentResult.label
      (analyzeSentiment true "great"
        (EngineOutput.arr [{ label := "positive", score := 9/10 }])) =
      Except.ok "POSITIVE" ∧
    ("POSITIVE" : String) ≠ "positive" := by
  constructor
  · rw [analyzeSentiment_ok _ _ _ (by decide)]
    simp [Except.map]
    decide
  · decide

/-- C2 (amended).  The label is normalized to uppercase for the containment
comparison (the sentiment is derived from the uppercased label), and the
label field stored in the returned SentimentResult is that same uppercased
label, not the original-case engine label. -/
theorem label_stored_uppercase (text : String) (raw : RawClassification)
    (rest : List RawClassification) (ht : ¬(text = "" ∨ (jsTrim text).length = 0)) :
    Except.map SentimentResult.label
      (analyzeSentiment true text (EngineOutput.arr (raw :: rest))) =
      Except.ok (jsToUpperCase raw.label) ∧
    Except.map SentimentResult.sentiment
      (analyzeSentiment true text (EngineOutput.arr (raw :: rest))) =
      Except.ok (deriveSentiment (jsToUpperCase raw.label) raw.score) := by
  rw [analyzeSentiment_ok text raw rest ht]
  exact ⟨rfl, rfl⟩

/-- C2 (witness for `label_stored_uppercase`), at text "great" and engine
label "positive" with score 0.9. -/
theorem label_stored_uppercase_witness :
    Except.map SentimentResult.label
      (analyzeSentiment true "great"
        (EngineOutput.arr [{ label := "positive", score := 9/10 }])) =
      Except.ok (jsToUpperCase "positive") ∧
    Except.map SentimentResult.sentiment
      (analyzeSentiment true "great"
        (EngineOutput.arr [{ label := "positive", score := 9/10 }])) =
      Except.ok (deriveSentiment (jsToUpperCase "positive") (9/10)) :=
  label_stored_uppercase "great" { label := "positive", score := 9/10 } [] (by decide)

/-- C3 (counterexample).  The claim "classify with empty text fails with
InvalidInput regardless of engine state" fails when the engine is not
initialized: there the readiness check runs first and the error is
EngineNotReady, a different error. -/
theorem empty_text_error_counterexample :
    analyzeSentiment false "" (EngineOutput.arr []) = Except.error JsError.engineNotReady ∧
    JsError.engineNotReady ≠ JsError.invalidInput := by
  exact ⟨rfl, by decide⟩

/-- C3 (amended).  When the engine is initialized, calling classify with text
that is empty (or empty after trimming whitespace) fails with the
InvalidInput error and no other; when the engine is not initialized, the
same call with empty text fails with EngineNotReady instead, because the
readiness check precedes the input check. -/
theorem empty_text_invalid_input (text : String) (out : EngineOutput)
    (h : text = "" ∨ (jsTrim text).length = 0) :
    analyzeSentiment true text out = Except.error JsError.invalidInput ∧
    analyzeSentiment false text out = Except.error JsError.engineNotReady := by
  unfold analyzeSentiment
  rcases h with h | h <;> simp [h]

/-- C3 (witness for `empty_text_invalid_input`), at the empty string. -/
theorem empty_text_invalid_input_witness :
    analyzeSentiment true "" (EngineOutput.arr []) = Except.error JsError.invalidInput ∧
    analyzeSentiment false "" (EngineOutput.arr []) = Except.error JsError.engineNotReady :=
  empty_text_invalid_input "" (EngineOutput.arr []) (Or.inl rfl)

/-- C4.  When the primary label case-insensitively contains both "positive"
and "negative" and the score exceeds 0.5, the sentiment is positive: the
positive branch is tested before the negative branch. -/
theorem dual_label_positive_precedence (text : String) (raw : RawClassification)
    (rest : List RawClassification) (ht : ¬(text = "" ∨ (jsTrim text).length = 0))
    (hp : jsIncludes (jsToUpperCase raw.label) "POSITIVE" = true)
    (hn : jsIncludes (jsToUpperCase raw.label) "NEGATIVE" = true)
    (hs : raw.score > 1/2) :
    Except.map SentimentResult.sentiment
      (analyzeSentiment true text (EngineOutput.arr (raw :: rest))) =
      Except.ok Sentiment.positive := by
  rw [analyzeSentiment_ok text raw rest ht]
  simp [Except.map, deriveSentiment, hp, hs, -one_div]

/-- C4 (witness for `dual_label_positive_precedence`), at the label
"positive-negative" with score 0.75. -/
theorem dual_label_positive_precedence_witness :
    Except.map SentimentResult.sentiment
      (analyzeSentiment true "ok"
        (EngineOutput.arr [{ label := "positive-negative", score := 3/4 }])) =
      Except.ok Sentiment.positive :=
  dual_label_positive_precedence "ok" { label := "positive-negative", score := 3/4 } []
    (by decide) (by decide) (by decide) (by norm_num)

/-- C5.  For a primary score in [0,1], the confidence field of the returned
SentimentResult is a string with exactly one digit after the decimal point
denoting the score times 100 rounded to one decimal place; in particular a
score of 0.952 yields the string "95.2". -/
theorem confidencePercent_one_decimal (text : String) (raw : RawClassification)
    (rest : List RawClassification) (ht : ¬(text = "" ∨ (jsTrim text).length = 0))
    (h0 : 0 ≤ raw.score) (h1 : raw.score ≤ 1) :
    ∃ r, analyzeSentiment true text (EngineOutput.arr (raw :: rest)) = Except.ok r ∧
      denotesOneDecimal r.confidence (specRoundOneDecimal (raw.score * 100)) ∧
      (raw.score = 119/125 → r.confidence = "95.2") := by
  refine ⟨_, analyzeSentiment_ok text raw rest ht, jsToFixed1_denotes _ (by positivity), ?_⟩
  intro hsc
  show jsToFixed1 (raw.score * 100) = "95.2"
  rw [hsc]
  have hfl : ⌊(119:ℚ)/125 * 100 * 10 + 1/2⌋ = 952 := by norm_num
  unfold jsToFixed1
  rw [hfl]
  decide

/-- C5 (witness for `confidencePercent_one_decimal`), at score 0.952, where
the confidence string is "95.2". -/
theorem confidencePercent_one_decimal_witness :
    ∃ r, analyzeSentiment true "ok"
        (EngineOutput.arr [{ label := "POSITIVE", score := 119/125 }]) = Except.ok r ∧
      denotesOneDecimal r.confidence (specRoundOneDecimal ((119:ℚ)/125 * 100)) ∧
      ((119:ℚ)/125 = 119/125 → r.confidence = "95.2") :=
  confidencePercent_one_decimal "ok" { label := "POSITIVE", score := 119/125 } []
    (by decide) (by norm_num) (by norm_num)

/-- C6.  With a non-empty session and a configured URL, the transmitted
record is exactly `buildLogRecord` of the session, whose sentiment field
is the session's label, a space, an opening parenthesis, the confidence
string, a percent sign and a closing parenthesis; for label "POSITIVE" and
confidence "95.2" it is exactly "POSITIVE (95.2%)". -/
theorem log_record_sentiment_format (ca : Analysis) (env : ClientEnv) (now url : String)
    (revs : List String) (hu1 : url ≠ "") (hu2 : url ≠ PLACEHOLDER_URL) :
    (logToGoogleSheets url { reviews := revs, currentAnalysis := some ca } env now
        FetchOutcome.success).1 =
      Except.ok (buildLogRecord ca env now revs.length) ∧
    (buildLogRecord ca env now revs.length).sentiment =
      ca.label ++ " (" ++ ca.confidence ++ "%)" ∧
    (ca.label = "POSITIVE" → ca.confidence = "95.2" →
      (buildLogRecord ca env now revs.length).sentiment = "POSITIVE (95.2%)") := by
  refine ⟨by simp [logToGoogleSheets, hu1, hu2], rfl, ?_⟩
  intro h1 h2
  show ca.label ++ " (" ++ ca.confidence ++ "%)" = "POSITIVE (95.2%)"
  rw [h1, h2]
  decide

/-- C6 (witness for `log_record_sentiment_format`), at label "POSITIVE" and
confidence "95.2". -/
theorem log_record_sentiment_format_witness :
    ("https://example.com" : String) ≠ "" ∧
    ("https://example.com" : String) ≠ PLACEHOLDER_URL ∧
    (buildLogRecord
        { review := "great", label := "POSITIVE", score := 119/125,
          sentiment := Sentiment.positive, confidence := "95.2", timestamp := "t0" }
        { userAgent := "UA", language := "en", platformId := "x",
          screenWidth := 1920, screenHeight := 1080 }
        "t1" ([] : List String).length).sentiment = "POSITIVE (95.2%)" := by
  refine ⟨by decide, by decide, ?_⟩
  exact (log_record_sentiment_format
    { review := "great", label := "POSITIVE", score := 119/125,
      sentiment := Sentiment.positive, confidence := "95.2", timestamp := "t0" }
    { userAgent := "UA", language := "en", platformId := "x",
      screenWidth := 1920, screenHeight := 1080 }
    "t1" "https://example.com" [] (by decide) (by decide)).2.2 rfl rfl

/-- C7.  When no prior classification exists (`currentAnalysis` is null),
the logging action fails with NoAnalysisAvailable, no LogRecord is
produced, and the state is unchanged — for every URL, environment,
timestamp and network outcome. -/
theorem empty_session_no_analysis_error (url : String) (st : AppState) (env : ClientEnv)
    (now : String) (net : FetchOutcome) (h : st.currentAnalysis = none) :
    logToGoogleSheets url st env now net = (Except.error JsError.noAnalysisAvailable, st) := by
  unfold logToGoogleSheets
  rw [h]

/-- C7 (witness for `empty_session_no_analysis_error`), at the empty
session. -/
theorem empty_session_no_analysis_error_witness :
    logToGoogleSheets "https://example.com" { reviews := [], currentAnalysis := none }
        { userAgent := "UA", language := "en", platformId := "x",
          screenWidth := 1920, screenHeight := 1080 } "t1" FetchOutcome.success =
      (Except.error JsError.noAnalysisAvailable,
        { reviews := [], currentAnalysis := none }) :=
  empty_session_no_analysis_error "https://example.com"
    { reviews := [], currentAnalysis := none }
    { userAgent := "UA", language := "en", platformId := "x",
      screenWidth := 1920, screenHeight := 1080 } "t1" FetchOutcome.success rfl

/-- C8.  With the engine initialized and non-empty text, an engine result
that is not an array, or is an empty array, makes classify fail with the
InvalidEngineOutput error (no default SentimentResult is returned). -/
theorem invalid_engine_output_error (text : String)
    (ht : ¬(text = "" ∨ (jsTrim text).length = 0)) :
    analyzeSentiment true text EngineOutput.nonArray =
      Except.error JsError.invalidEngineOutput ∧
    analyzeSentiment true text (EngineOutput.arr []) =
      Except.error JsError.invalidEngineOutput := by
  constructor <;> simp [analyzeSentiment, ht]

/-- C8 (witness for `invalid_engine_output_error`), at the text "ok". -/
theorem invalid_engine_output_error_witness :
    analyzeSentiment true "ok" EngineOutput.nonArray =
      Except.error JsError.invalidEngineOutput ∧
    analyzeSentiment true "ok" (EngineOutput.arr []) =
      Except.error JsError.invalidEngineOutput :=
  invalid_engine_output_error "ok" (by decide)

/-- C9.  Over a single-element review list, `getRandomReview` returns that
element for every random draw in [0,1); over the empty list it fails with
the EmptyDataset error. -/
theorem pickRandom_singleton_and_empty (x : String) (r : ℚ) :
    ((0 ≤ r ∧ r < 1) → getRandomReview [x] r = Except.ok x) ∧
    getRandomReview [] r = Except.error JsError.emptyDataset := by
  constructor
  · rintro ⟨h0, h1⟩
    have hf : ⌊r⌋ = 0 := Int.floor_eq_zero_iff.mpr ⟨h0, h1⟩
    simp [getRandomReview, hf]
  · rfl

/-- C9 (witness for `pickRandom_singleton_and_empty`), at the draw 1/2. -/
theorem pickRandom_singleton_and_empty_witness :
    (0 ≤ (1:ℚ)/2 ∧ (1:ℚ)/2 < 1) ∧
    getRandomReview ["a"] (1/2) = Except.ok "a" ∧
    getRandomReview [] (1/2) = Except.error JsError.emptyDataset :=
  ⟨by norm_num, (pickRandom_singleton_and_empty "a" (1/2)).1 (by norm_num),
    (pickRandom_singleton_and_empty "a" (1/2)).2⟩

/-- C10.  The logging action leaves the module state (the review list and
the stored analysis with its review text, result fields and classification
timestamp) unchanged, whatever the URL, environment, timestamp and network
outcome — including every failure path. -/
theorem log_transmission_preserves_session (url : String) (st : AppState) (env : ClientEnv)
    (now : String) (net : FetchOutcome) :
    (logToGoogleSheets url st env now net).2 = st := by
  unfold logToGoogleSheets
  rcases st with ⟨revs, ca⟩
  cases ca
  · rfl
  · dsimp only
    split
    · rfl
    · cases net <;> rfl
